import Mathlib

/-!
Verification of the SmartThings integration layer (custom_components/smartthings).

This file gives a shallow embedding of the value-translation and status-lookup
logic of the integration: the capability/attribute key model with its
enum-versus-raw-string duality, the device status snapshot, the two-tier
(exact match, then string-equality fallback) lookups of `entity.py`, the
policy gates of `execute_device_command`, and the per-entity-type numeric
conversions of `fan.py`, `light.py`, `switch.py` and `number.py`.

Python floats are modelled as rationals; `math.ceil` is `Int.ceil`, Python's
floor division is `Int.fdiv`, Python's `int()` truncates toward zero, and
Python's `round` is round-half-to-even.
-/

namespace SmartThings2

/-- A capability or attribute identifier. The external library sometimes hands
back raw strings where the integration holds enum members; the spec notes the
two representations of the same identifier are not always interchangeable as
dictionary keys, so a key records which representation it is. Dictionary key
equality requires the same representation; `Key.toStr` is Python's `str()`,
identical for both. -/
inductive Key where
  | keyEnum (s : String)
  | keyRaw (s : String)
deriving DecidableEq

/-- Python `str()` of a capability/attribute identifier. -/
def Key.toStr : Key → String
  | .keyEnum s => s
  | .keyRaw s => s

/-- A scalar Python value appearing in a device status snapshot: None, a bool,
an int, or a string. -/
inductive Scalar where
  | sNone
  | sBool (b : Bool)
  | sInt (n : ℤ)
  | sStr (s : String)
deriving DecidableEq

/-- Python `str()` of a scalar. -/
def Scalar.pyStr : Scalar → String
  | .sNone => "None"
  | .sBool b => if b then "True" else "False"
  | .sInt n => toString n
  | .sStr s => s

/-- A Python value stored in a status attribute or passed as a command
argument: a scalar or a list of scalars (the lists in this integration -
disabled components, disabled capabilities, supported speeds and levels -
hold scalars only). -/
inductive Value where
  | scalar (s : Scalar)
  | vList (l : List Scalar)
deriving DecidableEq

/-- Shorthand for a string value. -/
def Value.vStr (s : String) : Value := .scalar (.sStr s)

/-- Shorthand for an int value. -/
def Value.vInt (n : ℤ) : Value := .scalar (.sInt n)

/-- Shorthand for a bool value. -/
def Value.vBool (b : Bool) : Value := .scalar (.sBool b)

/-- Shorthand for Python None stored as a value. -/
def Value.vNone : Value := .scalar .sNone

/-- One attribute entry of a device status snapshot (pysmartthings `Status`):
the integration only reads its `value` (and, for number units, `unit`). -/
structure AttrStatus where
  value : Value
deriving DecidableEq

/-- The status dictionary of one capability: attribute key to status entry,
in insertion order. -/
abbrev CapabilityStatus := List (Key × AttrStatus)

/-- The status dictionary of one component: capability key to capability
status, in insertion order. -/
abbrev ComponentStatus := List (Key × CapabilityStatus)

/-- The device status snapshot: component name (a plain string) to component
status. -/
abbrev DeviceStatus := List (String × ComponentStatus)

/-- Exact dictionary lookup on a key-indexed status dictionary (Python
`d[k]` / `d.get(k)` / `k in d`): first entry whose key equals the requested
key, representation included. -/
def lookupExact {α : Type} (d : List (Key × α)) (k : Key) : Option α :=
  (d.find? (fun p => p.1 == k)).map (fun p => p.2)

/-- The string-equality fallback scan of `entity.py`: first entry whose key
has the same `str()` as the requested key. -/
def lookupFallback {α : Type} (d : List (Key × α)) (k : Key) : Option α :=
  (d.find? (fun p => p.1.toStr == k.toStr)).map (fun p => p.2)

/-- Lookup of a component status by component name (`device.status.get(component)`). -/
def lookupComponent (d : DeviceStatus) (c : String) : Option ComponentStatus :=
  (d.find? (fun p => p.1 == c)).map (fun p => p.2)

/-- `SmartThingsEntity._get_capability_status`: the status mapping for a
capability on a component, by exact key match first, then by the
string-equality fallback scan; None when the component or capability is
absent. -/
def getCapabilityStatus (status : DeviceStatus) (component : String) (capability : Key) :
    Option CapabilityStatus :=
  match lookupComponent status component with
  | none => none
  | some componentStatus =>
    match lookupExact componentStatus capability with
    | some v => some v
    | none => lookupFallback componentStatus capability

/-- `SmartThingsEntity._get_status_value`: safely get an attribute value from
the device status, with the same exact-then-fallback matching at the
attribute level; None when anything along the path is absent. -/
def getStatusValue (status : DeviceStatus) (component : String)
    (capability attributeKey : Key) : Option Value :=
  match getCapabilityStatus status component capability with
  | none => none
  | some capabilityStatus =>
    match lookupExact capabilityStatus attributeKey with
    | some s => some s.value
    | none => (lookupFallback capabilityStatus attributeKey).map (fun s => s.value)

/-- The state of a `SmartThingsEntity`: the shared device status snapshot, the
component the entity is bound to, and the capability set passed to the
constructor. -/
structure Entity where
  status : DeviceStatus
  component : String
  capabilities : List Key

/-- `SmartThingsEntity.__init__`'s `_internal_state`: the slice of the
component's status restricted to the constructor's capabilities, keeping only
capabilities exactly present (the dict comprehension guards with
`if capability in device.status[component]`). The slice shares the snapshot's
entries, so it is recomputed here from the snapshot. -/
def internalState (e : Entity) : List (Key × CapabilityStatus) :=
  match lookupComponent e.status e.component with
  | none => []
  | some componentStatus =>
    e.capabilities.filterMap
      (fun c => (lookupExact componentStatus c).map (fun v => (c, v)))

/-- `SmartThingsEntity.get_attribute_value`: read from `_internal_state` with
exact-then-fallback attribute matching, and in every remaining case degrade
to `_get_status_value` on the full snapshot. -/
def get_attribute_value (e : Entity) (capability attributeKey : Key) : Option Value :=
  match lookupExact (internalState e) capability with
  | some capabilityState =>
    match lookupExact capabilityState attributeKey with
    | some s => some s.value
    | none =>
      match lookupFallback capabilityState attributeKey with
      | some s => some s.value
      | none => getStatusValue e.status e.component capability attributeKey
  | none => getStatusValue e.status e.component capability attributeKey

/-- The main component identifier (`const.MAIN`; `const.py` sits outside the
provided sources, its value is the fixed string used as the default
component). -/
def MAIN : String := "main"

/-- `custom.disabledComponents` capability key. `entity.py` resolves it with
`getattr(Capability, "CUSTOM_DISABLED_COMPONENTS", "custom.disabledComponents")`,
falling back to the raw string when the enum member is missing; lookups go
through the string fallback, so the representation does not change any result
below. -/
def CUSTOM_DISABLED_COMPONENTS_CAPABILITY : Key := .keyRaw "custom.disabledComponents"

/-- `disabledComponents` attribute key (same `getattr` fallback pattern). -/
def DISABLED_COMPONENTS_ATTRIBUTE : Key := .keyRaw "disabledComponents"

/-- `custom.disabledCapabilities` capability key (same `getattr` fallback
pattern). -/
def CUSTOM_DISABLED_CAPABILITIES_CAPABILITY : Key := .keyRaw "custom.disabledCapabilities"

/-- `disabledCapabilities` attribute key (same `getattr` fallback pattern). -/
def DISABLED_CAPABILITIES_ATTRIBUTE : Key := .keyRaw "disabledCapabilities"

/-- A command the entity asks the external client to execute. -/
structure SentCommand where
  capability : Key
  command : String
  argument : Option Value
deriving DecidableEq

/-- The disabled-components gate of `execute_device_command`: true when the
main component's `custom.disabledComponents` attribute is a list containing
the entity's component name. -/
def disabledComponentsGate (e : Entity) : Bool :=
  match getStatusValue e.status MAIN CUSTOM_DISABLED_COMPONENTS_CAPABILITY
      DISABLED_COMPONENTS_ATTRIBUTE with
  | some (.vList l) => l.contains (Scalar.sStr e.component)
  | _ => false

/-- The disabled-capabilities gate of `execute_device_command`: true when the
main component's `custom.disabledCapabilities` attribute is a list and
`str(capability)` appears among the items' string forms. (The code also
tests `capability in disabled_capabilities`; the capability enums compare
equal to their string value, so that disjunct is subsumed by the string-set
test for the scalar items such a list holds.) -/
def disabledCapabilitiesGate (e : Entity) (capability : Key) : Bool :=
  match getStatusValue e.status MAIN CUSTOM_DISABLED_CAPABILITIES_CAPABILITY
      DISABLED_CAPABILITIES_ATTRIBUTE with
  | some (.vList l) => l.any (fun item => item.pyStr == capability.toStr)
  | _ => false

/-- `SmartThingsEntity.execute_device_command`: returns the command forwarded
to the external client, or `none` when a policy gate dropped it. The gates
run in source order: capability missing from the component's status snapshot,
component administratively disabled, capability administratively disabled.
The function is total - a rejection reported by the client is caught and
logged in the source, so no path raises to the caller. -/
def execute_device_command (e : Entity) (capability : Key) (command : String)
    (argument : Option Value) : Option SentCommand :=
  if (getCapabilityStatus e.status e.component capability).isNone then none
  else if disabledComponentsGate e then none
  else if disabledCapabilitiesGate e capability then none
  else some ⟨capability, command, argument⟩

/-- Python `int()` applied to a number: truncation toward zero. -/
def pyTrunc (x : ℚ) : ℤ := if 0 ≤ x then ⌊x⌋ else ⌈x⌉

/-- Python `round` to an integer: round half to even. -/
def pyRoundHalfEven (x : ℚ) : ℤ :=
  if x - ⌊x⌋ < 1/2 then ⌊x⌋
  else if 1/2 < x - ⌊x⌋ then ⌊x⌋ + 1
  else if ⌊x⌋ % 2 = 0 then ⌊x⌋ else ⌊x⌋ + 1

/-- Python `round(x, ndigits)`: round half to even at `ndigits` decimal
places. -/
def pyRound (x : ℚ) (ndigits : ℕ) : ℚ :=
  (pyRoundHalfEven (x * 10 ^ ndigits) : ℚ) / 10 ^ ndigits

/-- `light.convert_scale`: `round(value * target_scale / value_scale,
round_digits)`. The source defaults `round_digits` to 4; callers here pass it
explicitly. -/
def convert_scale (value : ℚ) (value_scale target_scale : ℤ) (round_digits : ℕ) : ℚ :=
  pyRound (value * (target_scale : ℚ) / (value_scale : ℚ)) round_digits

/-- Modelled from the spec: `homeassistant.util.scaling.states_in_range` for
the host framework's percentage helpers (outside this repository's sources) -
the number of integer states in an inclusive low-high range. -/
def states_in_range (low high : ℤ) : ℤ := high - low + 1

/-- Modelled from the spec: `homeassistant.util.percentage.percentage_to_ranged_value`
(outside this repository's sources) - the linear rescale of a 1-100 percentage
onto the inclusive range `(low, high)`, as a float. -/
def percentage_to_ranged_value (low high : ℤ) (percentage : ℚ) : ℚ :=
  percentage * (states_in_range low high : ℚ) / 100 + ((low : ℚ) - 1)

/-- Modelled from the spec: `homeassistant.util.percentage.ranged_value_to_percentage`
(outside this repository's sources) - the inverse rescale of a range value to
a 1-100 percentage, floored to an integer by the helper's floor division. -/
def ranged_value_to_percentage (low high : ℤ) (value : ℚ) : ℤ :=
  ⌊(value - ((low : ℚ) - 1)) * 100 / (states_in_range low high : ℚ)⌋

/-- Modelled from the spec: `homeassistant.util.percentage.ordered_list_item_to_percentage`
(outside this repository's sources) - the percentage of an item in an ordered
speed list, `((index + 1) * 100) // len`; None models the ValueError raised
when the item is not in the list. -/
def ordered_list_item_to_percentage (l : List Scalar) (item : Scalar) : Option ℤ :=
  match l.findIdx? (fun s => s == item) with
  | none => none
  | some i => some (Int.fdiv (((i : ℤ) + 1) * 100) (l.length : ℤ))

/-- Enumeration loop of `percentage_to_ordered_list_item`: the first item whose
bucket upper bound `(position * 100) // len` reaches the percentage, scanning
with 1-based positions. -/
def orderedListScan (len percentage : ℤ) : List Scalar → ℤ → Option Scalar
  | [], _ => none
  | s :: rest, position =>
    if percentage ≤ Int.fdiv (position * 100) len then some s
    else orderedListScan len percentage rest (position + 1)

/-- Modelled from the spec: `homeassistant.util.percentage.percentage_to_ordered_list_item`
(outside this repository's sources) - the first item whose bucket upper bound
reaches the percentage, defaulting to the last item; None models the
ValueError raised on an empty list. -/
def percentage_to_ordered_list_item (l : List Scalar) (percentage : ℤ) : Option Scalar :=
  if l.isEmpty then none
  else
    match orderedListScan (l.length : ℤ) percentage l 1 with
    | some s => some s
    | none => l.getLast?

/-- `Capability.SWITCH`. -/
def SWITCH : Key := .keyEnum "switch"

/-- `Capability.SWITCH_LEVEL`. -/
def SWITCH_LEVEL : Key := .keyEnum "switchLevel"

/-- `Capability.COLOR_CONTROL`. -/
def COLOR_CONTROL : Key := .keyEnum "colorControl"

/-- `Capability.COLOR_TEMPERATURE`. -/
def COLOR_TEMPERATURE : Key := .keyEnum "colorTemperature"

/-- `Capability.FAN_SPEED`. -/
def FAN_SPEED_CAP : Key := .keyEnum "fanSpeed"

/-- `Capability.SAMSUNG_CE_HOOD_FAN_SPEED`. -/
def SAMSUNG_CE_HOOD_FAN_SPEED : Key := .keyEnum "samsungce.hoodFanSpeed"

/-- `Capability.SAMSUNG_CE_POWER_COOL`. -/
def SAMSUNG_CE_POWER_COOL : Key := .keyEnum "samsungce.powerCool"

/-- `Capability.SAMSUNG_CE_POWER_FREEZE`. -/
def SAMSUNG_CE_POWER_FREEZE : Key := .keyEnum "samsungce.powerFreeze"

/-- `Capability.THERMOSTAT_COOLING_SETPOINT`. -/
def THERMOSTAT_COOLING_SETPOINT : Key := .keyEnum "thermostatCoolingSetpoint"

/-- `Attribute.SWITCH`. -/
def SWITCH_ATTR : Key := .keyEnum "switch"

/-- `Attribute.FAN_SPEED`. -/
def FAN_SPEED_ATTR : Key := .keyEnum "fanSpeed"

/-- `Attribute.HOOD_FAN_SPEED`. -/
def HOOD_FAN_SPEED_ATTR : Key := .keyEnum "hoodFanSpeed"

/-- `Attribute.ACTIVATED`. -/
def ACTIVATED_ATTR : Key := .keyEnum "activated"

/-- `Attribute.COOLING_SETPOINT`. -/
def COOLING_SETPOINT_ATTR : Key := .keyEnum "coolingSetpoint"

/-- `fan.SPEED_RANGE`: `(1, 3)`, off not included. -/
def SPEED_RANGE_LOW : ℤ := 1

/-- Upper bound of `fan.SPEED_RANGE`. -/
def SPEED_RANGE_HIGH : ℤ := 3

/-- `fan.ORDERED_NAMED_HOOD_SPEEDS`: `["low", "medium", "high", "max"]`, off
not included. -/
def ORDERED_NAMED_HOOD_SPEEDS : List Scalar :=
  [.sStr "low", .sStr "medium", .sStr "high", .sStr "max"]

/-- The step the plain fan sends for a non-zero percentage:
`math.ceil(percentage_to_ranged_value(SPEED_RANGE, percentage))`. -/
def fan_step_for_percentage (percentage : ℤ) : ℤ :=
  ⌈percentage_to_ranged_value SPEED_RANGE_LOW SPEED_RANGE_HIGH (percentage : ℚ)⌉

/-- `SmartThingsFan.async_set_percentage`: percentage 0 issues the switch-off
command; otherwise the ceiling-rounded step goes out as the `setFanSpeed`
argument. The result lists the device commands the method issues, in order. -/
def fan_async_set_percentage (percentage : ℤ) : List SentCommand :=
  if percentage = 0 then [⟨SWITCH, "off", none⟩]
  else [⟨FAN_SPEED_CAP, "setFanSpeed", some (.vInt (fan_step_for_percentage percentage))⟩]

/-- `SmartThingsFan.percentage`: the read-back percentage for a fan speed
value from the status snapshot. -/
def fan_percentage (speedValue : ℤ) : ℤ :=
  ranged_value_to_percentage SPEED_RANGE_LOW SPEED_RANGE_HIGH (speedValue : ℚ)

/-- The hood fan configuration derived in
`SmartThingsSamsungceHoodFan.__init__` from the
`supportedHoodFanSpeed` attribute and the presence of the `switch`
capability on the component. -/
structure HoodConfig where
  speedSteps : List Scalar
  supportsOffViaSpeed : Bool
  useStrSpeeds : Bool
  splitSwitch : Bool
  defaultSpeed : Scalar
deriving DecidableEq

/-- `SmartThingsSamsungceHoodFan.__init__`: when the supported speeds
attribute is a list, off-representability is `"off" in list or 0 in list` and
the speed steps are the list without `"off"`/`0`; when the filtered steps are
empty the ordered named speeds are used and off is taken representable. The
split switch is a present `switch` capability with off not representable as a
speed; the default speed is the last step. -/
def mkHoodConfig (supportedFanSpeeds : Option Value) (hasSwitchCapability : Bool) :
    HoodConfig :=
  let fromList :=
    match supportedFanSpeeds with
    | some (.vList l) =>
      (l.filter (fun s => !(s == Scalar.sStr "off") && !(s == Scalar.sInt 0)),
       l.contains (Scalar.sStr "off") || l.contains (Scalar.sInt 0))
    | _ => ([], false)
  let steps := if fromList.1.isEmpty then ORDERED_NAMED_HOOD_SPEEDS else fromList.1
  let supportsOff := if fromList.1.isEmpty then true else fromList.2
  { speedSteps := steps
    supportsOffViaSpeed := supportsOff
    useStrSpeeds :=
      match steps.head? with
      | some (.sStr _) => true
      | _ => false
    splitSwitch := hasSwitchCapability && !supportsOff
    defaultSpeed := (steps.getLast?).getD (.sStr "max") }

/-- The explicit off speed value `_handle_turn_off` sends when off is
representable as a speed: `"off"` for string speed lists, `0` otherwise. -/
def hood_off_speed_value (cfg : HoodConfig) : Scalar :=
  if cfg.useStrSpeeds then .sStr "off" else .sInt 0

/-- `SmartThingsSamsungceHoodFan._percentage_to_speed_value`: the closest
available speed step for a percentage, with the default speed covering the
helper's ValueError. -/
def hood_percentage_to_speed_value (cfg : HoodConfig) (percentage : ℤ) : Scalar :=
  (percentage_to_ordered_list_item cfg.speedSteps percentage).getD cfg.defaultSpeed

/-- `SmartThingsSamsungceHoodFan._handle_turn_off`: split-switch devices get
the switch-off command; devices representing off as a speed get the explicit
off speed value; the remaining devices get the switch-off command. -/
def hood_handle_turn_off (cfg : HoodConfig) : List SentCommand :=
  if cfg.splitSwitch then [⟨SWITCH, "off", none⟩]
  else if cfg.supportsOffViaSpeed then
    [⟨SAMSUNG_CE_HOOD_FAN_SPEED, "setHoodFanSpeed",
      some (.vList [hood_off_speed_value cfg])⟩]
  else [⟨SWITCH, "off", none⟩]

/-- `SmartThingsSamsungceHoodFan.async_set_percentage`: percentage 0 routes
through `_handle_turn_off`; otherwise split-switch devices are switched on
first and the converted speed value goes out as the `setHoodFanSpeed`
argument. -/
def hood_async_set_percentage (cfg : HoodConfig) (percentage : ℤ) : List SentCommand :=
  if percentage = 0 then hood_handle_turn_off cfg
  else
    (if cfg.splitSwitch then [⟨SWITCH, "on", none⟩] else []) ++
      [⟨SAMSUNG_CE_HOOD_FAN_SPEED, "setHoodFanSpeed",
        some (.vList [hood_percentage_to_speed_value cfg percentage])⟩]

/-- `SmartThingsSamsungceHoodFan.is_on`: split-switch devices report the
switch attribute; otherwise the hood fan speed value decides, with
`"off"`/`0`/None meaning off when off is representable as a speed. -/
def hood_is_on (cfg : HoodConfig) (e : Entity) : Bool :=
  if cfg.splitSwitch then
    get_attribute_value e SWITCH SWITCH_ATTR == some (Value.vStr "on")
  else
    let value := get_attribute_value e SAMSUNG_CE_HOOD_FAN_SPEED HOOD_FAN_SPEED_ATTR
    if cfg.supportsOffViaSpeed then
      !([some (Value.vStr "off"), some (Value.vInt 0), (none : Option Value)].contains
        value)
    else value.isSome

/-- `SmartThingsSamsungceHoodFan._percentage_from_speed_value`: 0 when a
split switch reads off, when a representable off value (or None) is the
speed, or when the value is outside the speed steps; otherwise the ordered
list percentage (0 covering the helper's ValueError). -/
def hood_percentage_from_speed_value (cfg : HoodConfig) (e : Entity)
    (speedValue : Option Value) : ℤ :=
  if cfg.splitSwitch &&
      (get_attribute_value e SWITCH SWITCH_ATTR == some (Value.vStr "off")) then 0
  else if cfg.supportsOffViaSpeed &&
      ([some (Value.vStr "off"), some (Value.vInt 0), (none : Option Value)].contains
        speedValue) then 0
  else
    match speedValue with
    | some (.scalar s) =>
      if cfg.speedSteps.contains s then
        (ordered_list_item_to_percentage cfg.speedSteps s).getD 0
      else 0
    | _ => 0

/-- `SmartThingsSamsungceHoodFan.percentage`: the hood fan speed attribute
pushed through `_percentage_from_speed_value`. -/
def hood_percentage (cfg : HoodConfig) (e : Entity) : ℤ :=
  hood_percentage_from_speed_value cfg e
    (get_attribute_value e SAMSUNG_CE_HOOD_FAN_SPEED HOOD_FAN_SPEED_ATTR)

/-- The reading side of `SmartThingsLight._update_attr` for hue: the raw
vendor hue pushed through `convert_scale(hue, 100, 360)` with the default
four round digits and no clamping. -/
def light_read_hue (hue : ℚ) : ℚ := convert_scale hue 100 360 4

/-- The hue half of `SmartThingsLight.async_set_color`: the host hue rescaled
by `convert_scale(hue, 360, 100)` and clamped into the vendor range by
`max(min(hue, 100.0), 0.0)`. -/
def light_set_color_hue (hostHue : ℚ) : ℚ :=
  max (min (convert_scale hostHue 360 100 4) 100) 0

/-- The saturation half of `SmartThingsLight.async_set_color`:
`max(min(float(saturation), 100.0), 0.0)`. -/
def light_set_color_saturation (saturation : ℚ) : ℚ :=
  max (min saturation 100) 0

/-- The vendor level the non-lamp branch of `SmartThingsLight.async_set_level`
sends: `int(convert_scale(brightness, 255, 100, 0))`, bumped to 1 when a
positive brightness rounded to 0, then clamped into `[0, 100]`. -/
def dimmer_level (brightness : ℤ) : ℤ :=
  let level0 := pyTrunc (convert_scale (brightness : ℚ) 255 100 0)
  let level1 := if level0 = 0 ∧ brightness > 0 then 1 else level0
  max (min level1 100) 0

/-- The non-lamp branch of `SmartThingsLight.async_set_level` as the command
it issues: `setLevel` with the converted level and the transition duration. -/
def light_async_set_level_dimmer (brightness transition : ℤ) : SentCommand :=
  ⟨SWITCH_LEVEL, "setLevel",
    some (.vList [.sInt (dimmer_level brightness), .sInt transition])⟩

/-- The lamp configuration derived in `SmartThingsLight.__init__` from the
`supportedBrightnessLevel` attribute of `samsungce.lamp` and the presence of
the `switch` capability. -/
structure LampConfig where
  supportedLevels : List String
  supportsOff : Bool
  splitSwitch : Bool
  defaultLevel : String
deriving DecidableEq

/-- `SmartThingsLight.__init__` for a `samsungce.lamp` entity: a non-empty
supported level list fixes the levels, off-support is `"off" in levels`, the
default level is the last non-off level (falling back to `"high"`), and the
split switch is a present `switch` capability without off-support. -/
def mkLampConfig (brightnessLevels : Option (List String)) (hasSwitchCapability : Bool) :
    LampConfig :=
  let levels := brightnessLevels.getD []
  if levels.isEmpty then
    { supportedLevels := [], supportsOff := false,
      splitSwitch := hasSwitchCapability, defaultLevel := "high" }
  else
    let supportsOff := levels.contains "off"
    { supportedLevels := levels
      supportsOff := supportsOff
      splitSwitch := hasSwitchCapability && !supportsOff
      defaultLevel := ((levels.reverse.find? (fun l => l != "off")).getD "high") }

/-- `SmartThingsLight._select_lamp_level_for_brightness`: non-positive
brightness maps to `"off"` when off is supported (None otherwise); a positive
brightness picks among the non-off levels by equal-width bucketing with
`step = 255 / len(levels)` and index `min(len - 1, max(0, ceil(b / step) - 1))`,
with the default level covering an empty non-off list. -/
def select_lamp_level_for_brightness (cfg : LampConfig) (brightness : ℤ) :
    Option String :=
  if brightness ≤ 0 then
    if cfg.supportsOff then some "off" else none
  else
    let levels := cfg.supportedLevels.filter (fun l => l != "off")
    if levels.isEmpty then some cfg.defaultLevel
    else
      let step : ℚ := 255 / (levels.length : ℚ)
      let levelIndex : ℤ :=
        min ((levels.length : ℤ) - 1) (max 0 (⌈(brightness : ℚ) / step⌉ - 1))
      some (levels.getD levelIndex.toNat "")

/-- `SmartThingsLight._lamp_level_to_brightness`: None passes through; a
split switch reading off, or an `"off"` level, reads as brightness 0; a level
outside the non-off list (or an empty list) reads as 255; otherwise the
bucket value `int(step * (index + 1))`. -/
def lamp_level_to_brightness (cfg : LampConfig) (level : Option String)
    (switchState : Option String) : Option ℤ :=
  match level with
  | none => none
  | some lvl =>
    if cfg.splitSwitch && (switchState == some "off") then some 0
    else if lvl = "off" then some 0
    else
      let levels := cfg.supportedLevels.filter (fun l => l != "off")
      if levels.isEmpty then some 255
      else if !(levels.contains lvl) then some 255
      else
        let step : ℚ := 255 / (levels.length : ℚ)
        some (pyTrunc (step * ((levels.findIdx (fun l => l == lvl) : ℤ) + 1)))

/-- One row of `switch.CAPABILITIES`: the attribute read by `is_on`, the
presented name, the value meaning on, and the off/on commands. -/
structure SwitchCapEntry where
  attributeKey : Key
  presentedName : String
  isOnKey : String
  offCommand : String
  onCommand : String
deriving DecidableEq

/-- `switch.CAPABILITIES`: the static capability table of the switch
platform. The power-cool and power-freeze rows compare the `activated`
attribute against the literal string `"True"` and use the
deactivate/activate commands. -/
def SWITCH_CAPABILITIES : List (Key × SwitchCapEntry) :=
  [(SWITCH, ⟨SWITCH_ATTR, "switch", "on", "off", "on"⟩),
   (SWITCH_LEVEL, ⟨SWITCH_ATTR, "switch", "on", "off", "on"⟩),
   (COLOR_CONTROL, ⟨SWITCH_ATTR, "switch", "on", "off", "on"⟩),
   (COLOR_TEMPERATURE, ⟨SWITCH_ATTR, "switch", "on", "off", "on"⟩),
   (FAN_SPEED_CAP, ⟨SWITCH_ATTR, "switch", "on", "off", "on"⟩),
   (SAMSUNG_CE_POWER_COOL, ⟨ACTIVATED_ATTR, "powerCool", "True", "deactivate", "activate"⟩),
   (SAMSUNG_CE_POWER_FREEZE, ⟨ACTIVATED_ATTR, "powerFreeze", "True", "deactivate", "activate"⟩)]

/-- `SmartThingsSwitch.is_on`: the table row's attribute value compared for
equality against the row's on-key string; None when the capability has no
table row (the source would raise a KeyError there, and never constructs
such a switch). -/
def switch_is_on (e : Entity) (capability : Key) : Option Bool :=
  match lookupExact SWITCH_CAPABILITIES capability with
  | none => none
  | some entry =>
    some (get_attribute_value e capability entry.attributeKey
      == some (Value.vStr entry.isOnKey))

/-- Python `int()` applied to an attribute read result: ints pass through,
bools collapse to 0/1, digit strings parse; None (an absent value), lists
and non-numeric strings raise - modelled as an error result naming the
exception. -/
def pyIntOfRead : Option Value → Except String ℤ
  | some (.scalar (.sInt n)) => .ok n
  | some (.scalar (.sBool b)) => .ok (if b then 1 else 0)
  | some (.scalar (.sStr s)) =>
    match s.toInt? with
    | some n => .ok n
    | none => .error "ValueError"
  | some (.scalar .sNone) => .error "TypeError"
  | some (.vList _) => .error "TypeError"
  | none => .error "TypeError"

/-- `SmartThingsNumberEntity.native_value`:
`int(self.get_attribute_value(THERMOSTAT_COOLING_SETPOINT, COOLING_SETPOINT))`
with no None guard before the `int()` conversion. -/
def number_native_value (e : Entity) : Except String ℤ :=
  pyIntOfRead (get_attribute_value e THERMOSTAT_COOLING_SETPOINT COOLING_SETPOINT_ATTR)

/-- Test snapshot: a device whose main component lists component `"hood"` in
`custom.disabledComponents`, while the hood component itself carries a
`switch` capability. -/
def egDisabledStatus : DeviceStatus :=
  [("main",
    [(CUSTOM_DISABLED_COMPONENTS_CAPABILITY,
      [(DISABLED_COMPONENTS_ATTRIBUTE, ⟨.vList [.sStr "hood"]⟩)])]),
   ("hood", [(SWITCH, [(SWITCH_ATTR, ⟨Value.vStr "on"⟩)])])]

/-- Test entity bound to the administratively disabled `"hood"` component. -/
def egDisabledEntity : Entity := ⟨egDisabledStatus, "hood", [SWITCH]⟩

/-- Test entity whose thermostat capability is present but carries no
`coolingSetpoint` attribute. -/
def egNoSetpointEntity : Entity :=
  ⟨[("main", [(THERMOSTAT_COOLING_SETPOINT, [])])], "main",
    [THERMOSTAT_COOLING_SETPOINT]⟩

/-- Test entity whose main component has no capabilities at all. -/
def egEmptyEntity : Entity :=
  ⟨[("main", [])], "main", [THERMOSTAT_COOLING_SETPOINT]⟩

/-- Test entity whose `switch` capability is keyed by the raw string rather
than the enum member. -/
def egRawKeyEntity : Entity :=
  ⟨[("main", [(Key.keyRaw "switch", [(SWITCH_ATTR, ⟨Value.vStr "on"⟩)])])], "main",
    [SWITCH]⟩

/-- Test hood fan: supported speeds without an off value, so off needs the
separate switch. -/
def egSplitHoodConfig : HoodConfig :=
  mkHoodConfig (some (.vList [.sStr "low", .sStr "high"])) true

/-- Test entity for the split-switch hood fan: switch reads `"off"` while the
last known hood fan speed is `"high"`. -/
def egSplitHoodEntity : Entity :=
  ⟨[("main",
    [(SWITCH, [(SWITCH_ATTR, ⟨Value.vStr "off"⟩)]),
     (SAMSUNG_CE_HOOD_FAN_SPEED, [(HOOD_FAN_SPEED_ATTR, ⟨Value.vStr "high"⟩)])])],
    "main", [SWITCH, SAMSUNG_CE_HOOD_FAN_SPEED]⟩

/-- Test hood fan with off representable as a speed value. -/
def egOffHoodSupported : Option Value :=
  some (.vList [.sStr "off", .sStr "low", .sStr "high"])

/-- The named-level lamp of the spec's example: levels
`["off", "low", "high"]` and no separate switch. -/
def demoLampConfig : LampConfig := mkLampConfig (some ["off", "low", "high"]) false

/-- Test power-cool switch entity with a given `activated` status value. -/
def egPowerCoolEntity (v : Value) : Entity :=
  ⟨[("main", [(SAMSUNG_CE_POWER_COOL, [(ACTIVATED_ATTR, ⟨v⟩)])])], "main",
    [SAMSUNG_CE_POWER_COOL]⟩

theorem lookupExact_some_mem {α : Type} {d : List (Key × α)} {k : Key} {v : α}
    (h : lookupExact d k = some v) : (k, v) ∈ d := by
  unfold lookupExact at h
  rcases Option.map_eq_some'.mp h with ⟨q, hfind, hv⟩
  have hkey := List.find?_some hfind
  have hmem := List.mem_of_find?_eq_some hfind
  have h1 : q.1 = k := by simpa using hkey
  obtain ⟨q1, q2⟩ := q
  simp only at h1 hv
  subst h1
  subst hv
  exact hmem

theorem lookupExact_eq_none {α : Type} {d : List (Key × α)} {k : Key}
    (h : ∀ p ∈ d, p.1.toStr ≠ k.toStr) : lookupExact d k = none := by
  unfold lookupExact
  rw [Option.map_eq_none', List.find?_eq_none]
  intro p hp
  simp only [beq_iff_eq]
  intro hk
  exact h p hp (by rw [hk])

theorem lookupFallback_eq_none {α : Type} {d : List (Key × α)} {k : Key}
    (h : ∀ p ∈ d, p.1.toStr ≠ k.toStr) : lookupFallback d k = none := by
  unfold lookupFallback
  rw [Option.map_eq_none', List.find?_eq_none]
  intro p hp
  simp only [beq_iff_eq]
  exact h p hp

theorem internalState_entry {e : Entity} {q : Key × CapabilityStatus}
    (hq : q ∈ internalState e) :
    ∃ cs, lookupComponent e.status e.component = some cs ∧
      lookupExact cs q.1 = some q.2 := by
  unfold internalState at hq
  cases hcomp : lookupComponent e.status e.component with
  | none => rw [hcomp] at hq; simp at hq
  | some cs =>
    rw [hcomp] at hq
    rcases List.mem_filterMap.mp hq with ⟨c, _, hfc⟩
    rcases Option.map_eq_some'.mp hfc with ⟨v, hv, hqe⟩
    refine ⟨cs, rfl, ?_⟩
    rw [← hqe]
    exact hv

theorem lookupExact_internalState {e : Entity} {k : Key} {v : CapabilityStatus}
    (h : lookupExact (internalState e) k = some v) :
    ∃ cs, lookupComponent e.status e.component = some cs ∧
      lookupExact cs k = some v :=
  internalState_entry (lookupExact_some_mem h)

/-- Claim C1: `execute_device_command` never forwards a command when a policy
gate fails - the capability missing from the component's status snapshot, the
entity's component listed in the main component's `custom.disabledComponents`
attribute, or the capability listed in `custom.disabledCapabilities`. The
drop is a plain `none` return: the function is total, so the call returns
without raising. -/
theorem execute_device_command_policy_gates (e : Entity) (capability : Key)
    (command : String) (argument : Option Value) :
    (getCapabilityStatus e.status e.component capability = none →
      execute_device_command e capability command argument = none)
    ∧ (∀ l : List Scalar,
        getStatusValue e.status MAIN CUSTOM_DISABLED_COMPONENTS_CAPABILITY
          DISABLED_COMPONENTS_ATTRIBUTE = some (.vList l) →
        Scalar.sStr e.component ∈ l →
        execute_device_command e capability command argument = none)
    ∧ (∀ l : List Scalar,
        getStatusValue e.status MAIN CUSTOM_DISABLED_CAPABILITIES_CAPABILITY
          DISABLED_CAPABILITIES_ATTRIBUTE = some (.vList l) →
        (∃ item ∈ l, item.pyStr = capability.toStr) →
        execute_device_command e capability command argument = none) := by
  refine ⟨?_, ?_, ?_⟩
  · intro h
    simp [execute_device_command, h]
  · intro l hl hm
    have hgate : disabledComponentsGate e = true := by
      unfold disabledComponentsGate
      rw [hl]
      simpa using hm
    by_cases h1 : (getCapabilityStatus e.status e.component capability).isNone
    · simp [execute_device_command, h1]
    · simp [execute_device_command, h1, hgate]
  · rintro l hl ⟨item, hmem, heq⟩
    have hgate : disabledCapabilitiesGate e capability = true := by
      unfold disabledCapabilitiesGate
      rw [hl]
      exact List.any_eq_true.mpr ⟨item, hmem, by simp [heq]⟩
    by_cases h1 : (getCapabilityStatus e.status e.component capability).isNone
    · simp [execute_device_command, h1]
    · by_cases h2 : disabledComponentsGate e
      · simp [execute_device_command, h1, h2]
      · simp [execute_device_command, h1, h2, hgate]

theorem execute_device_command_policy_gates_witness :
    execute_device_command egDisabledEntity SWITCH "off" none = none :=
  (execute_device_command_policy_gates egDisabledEntity SWITCH "off" none).2.1
    [.sStr "hood"] (by decide) (by decide)

/-- Claim C2 (amended): a read of a capability absent from the component's
status (no key with its string form) or of an attribute absent from the
resolved capability status returns None without raising; however the number
entity's `native_value` applies `int()` to the read result with no None
guard, so an absent value makes it raise a TypeError instead of returning a
null value. -/
theorem get_attribute_value_absent_reads_none (e : Entity)
    (capability attributeKey : Key) :
    ((∀ cs, lookupComponent e.status e.component = some cs →
        ∀ p ∈ cs, p.1.toStr ≠ capability.toStr) →
      get_attribute_value e capability attributeKey = none)
    ∧ ((∀ cs, getCapabilityStatus e.status e.component capability = some cs →
        ∀ p ∈ cs, p.1.toStr ≠ attributeKey.toStr) →
      get_attribute_value e capability attributeKey = none)
    ∧ (get_attribute_value e THERMOSTAT_COOLING_SETPOINT COOLING_SETPOINT_ATTR
        = none →
      number_native_value e = .error "TypeError") := by
  refine ⟨?_, ?_, ?_⟩
  · intro h
    have hcap : getCapabilityStatus e.status e.component capability = none := by
      unfold getCapabilityStatus
      cases hcomp : lookupComponent e.status e.component with
      | none => rfl
      | some cs =>
        simp only [lookupExact_eq_none (h cs hcomp), lookupFallback_eq_none (h cs hcomp)]
    have hint : lookupExact (internalState e) capability = none := by
      cases hx : lookupExact (internalState e) capability with
      | none => rfl
      | some v =>
        exfalso
        rcases lookupExact_internalState hx with ⟨cs, hcs, hl⟩
        exact h cs hcs _ (lookupExact_some_mem hl) rfl
    simp [get_attribute_value, hint, getStatusValue, hcap]
  · intro h
    have hsv : getStatusValue e.status e.component capability attributeKey = none := by
      unfold getStatusValue
      cases hcap : getCapabilityStatus e.status e.component capability with
      | none => rfl
      | some cs =>
        have hp := h cs hcap
        simp only [lookupExact_eq_none hp, lookupFallback_eq_none hp, Option.map_none']
    cases hint : lookupExact (internalState e) capability with
    | none => simp [get_attribute_value, hint, hsv]
    | some capState =>
      rcases lookupExact_internalState hint with ⟨cs0, hcs0, hl0⟩
      have hcap : getCapabilityStatus e.status e.component capability = some capState := by
        unfold getCapabilityStatus
        rw [hcs0]
        simp only [hl0]
      have hp := h capState hcap
      simp [get_attribute_value, hint, lookupExact_eq_none hp,
        lookupFallback_eq_none hp, hsv]
  · intro h
    simp [number_native_value, h, pyIntOfRead]

theorem get_attribute_value_absent_reads_none_witness :
    get_attribute_value egEmptyEntity THERMOSTAT_COOLING_SETPOINT
      COOLING_SETPOINT_ATTR = none :=
  (get_attribute_value_absent_reads_none egEmptyEntity THERMOSTAT_COOLING_SETPOINT
      COOLING_SETPOINT_ATTR).1
    (by
      intro cs hcs
      have h0 : some ([] : ComponentStatus) = some cs := hcs
      cases Option.some.inj h0
      intro p hp
      simp at hp)

/-- Claim C2 counterexample: with the `coolingSetpoint` attribute absent the
read path does return None, but the number entity's `native_value` raises a
TypeError (`int(None)`) instead of returning a null value - so not every
failure path of this layer degrades without raising. -/
theorem number_native_value_raises_on_absent :
    get_attribute_value egNoSetpointEntity THERMOSTAT_COOLING_SETPOINT
      COOLING_SETPOINT_ATTR = none
    ∧ number_native_value egNoSetpointEntity = .error "TypeError" := by
  constructor
  · decide
  · rfl

/-- Claim C8: when the requested key misses under exact dictionary membership
but the string-equality fallback scan finds an entry, the lookup resolves to
that entry's value - at the capability level of `_get_capability_status`, at
the attribute level of `_get_status_value`, and at the attribute level of
`get_attribute_value`'s internal-state read. -/
theorem status_lookup_string_fallback (st : DeviceStatus) (component : String)
    (capability attributeKey : Key) (e : Entity) :
    (∀ compStatus cs, lookupComponent st component = some compStatus →
      lookupExact compStatus capability = none →
      lookupFallback compStatus capability = some cs →
      getCapabilityStatus st component capability = some cs)
    ∧ (∀ cs s, getCapabilityStatus st component capability = some cs →
      lookupExact cs attributeKey = none →
      lookupFallback cs attributeKey = some s →
      getStatusValue st component capability attributeKey = some s.value)
    ∧ (∀ capState s, lookupExact (internalState e) capability = some capState →
      lookupExact capState attributeKey = none →
      lookupFallback capState attributeKey = some s →
      get_attribute_value e capability attributeKey = some s.value) := by
  refine ⟨?_, ?_, ?_⟩
  · intro compStatus cs h1 h2 h3
    simp [getCapabilityStatus, h1, h2, h3]
  · intro cs s h1 h2 h3
    simp [getStatusValue, h1, h2, h3]
  · intro capState s h1 h2 h3
    simp [get_attribute_value, h1, h2, h3]

theorem status_lookup_string_fallback_witness :
    getCapabilityStatus egRawKeyEntity.status "main" SWITCH
      = some [(SWITCH_ATTR, ⟨Value.vStr "on"⟩)] :=
  (status_lookup_string_fallback egRawKeyEntity.status "main" SWITCH SWITCH_ATTR
      egRawKeyEntity).1
    [(Key.keyRaw "switch", [(SWITCH_ATTR, ⟨Value.vStr "on"⟩)])]
    [(SWITCH_ATTR, ⟨Value.vStr "on"⟩)] (by decide) (by decide) (by decide)

theorem ceil_intCast_div_100 (a z : ℤ) (h1 : 100 * (z - 1) < a) (h2 : a ≤ 100 * z) :
    ⌈(a : ℚ) / 100⌉ = z := by
  rw [Int.ceil_eq_iff]
  constructor
  · rw [lt_div_iff₀ (by norm_num : (0:ℚ) < 100)]
    calc ((z : ℚ) - 1) * 100 = ((100 * (z - 1) : ℤ) : ℚ) := by push_cast; ring
    _ < a := by exact_mod_cast h1
  · rw [div_le_iff₀ (by norm_num : (0:ℚ) < 100)]
    calc (a : ℚ) ≤ ((100 * z : ℤ) : ℚ) := by exact_mod_cast h2
    _ = (z : ℚ) * 100 := by push_cast; ring

theorem floor_intCast_div_3 (a z : ℤ) (h1 : 3 * z ≤ a) (h2 : a < 3 * (z + 1)) :
    ⌊(a : ℚ) / 3⌋ = z := by
  rw [Int.floor_eq_iff]
  constructor
  · rw [le_div_iff₀ (by norm_num : (0:ℚ) < 3)]
    calc (z : ℚ) * 3 = ((3 * z : ℤ) : ℚ) := by push_cast; ring
    _ ≤ a := by exact_mod_cast h1
  · rw [div_lt_iff₀ (by norm_num : (0:ℚ) < 3)]
    calc (a : ℚ) < ((3 * (z + 1) : ℤ) : ℚ) := by exact_mod_cast h2
    _ = ((z : ℚ) + 1) * 3 := by push_cast; ring

theorem fan_step_eq (q s : ℤ) (h1 : 100 * (s - 1) < 3 * q) (h2 : 3 * q ≤ 100 * s) :
    fan_step_for_percentage q = s := by
  unfold fan_step_for_percentage percentage_to_ranged_value states_in_range
    SPEED_RANGE_LOW SPEED_RANGE_HIGH
  rw [show (q : ℚ) * (((3 : ℤ) - 1 + 1 : ℤ) : ℚ) / 100 + (((1:ℤ) : ℚ) - 1)
      = ((3 * q : ℤ) : ℚ) / 100 from by push_cast; ring]
  exact ceil_intCast_div_100 _ _ h1 h2

theorem fan_read_eq (s r : ℤ) (h1 : 3 * r ≤ 100 * s) (h2 : 100 * s < 3 * (r + 1)) :
    fan_percentage s = r := by
  unfold fan_percentage ranged_value_to_percentage states_in_range
    SPEED_RANGE_LOW SPEED_RANGE_HIGH
  rw [show ((s : ℚ) - (((1:ℤ) : ℚ) - 1)) * 100 / (((3 : ℤ) - 1 + 1 : ℤ) : ℚ)
      = ((100 * s : ℤ) : ℚ) / 3 from by push_cast; ring]
  exact floor_intCast_div_3 _ _ h1 h2

/-- Claim C3: over the 3-step fan speed range, converting a percentage in
1..100 to a step by ceiling rounding, reading the step back as a percentage,
and converting that percentage to a step again lands on the same step - the
round trip is idempotent at the step level for every percentage. -/
theorem fan_round_trip_idempotent (p : ℤ) (hp1 : 1 ≤ p) (hp2 : p ≤ 100) :
    fan_step_for_percentage (fan_percentage (fan_step_for_percentage p))
      = fan_step_for_percentage p := by
  by_cases hA : p ≤ 33
  · rw [fan_step_eq p 1 (by omega) (by omega), fan_read_eq 1 33 (by omega) (by omega)]
    exact fan_step_eq 33 1 (by omega) (by omega)
  · by_cases hB : p ≤ 66
    · rw [fan_step_eq p 2 (by omega) (by omega), fan_read_eq 2 66 (by omega) (by omega)]
      exact fan_step_eq 66 2 (by omega) (by omega)
    · rw [fan_step_eq p 3 (by omega) (by omega),
        fan_read_eq 3 100 (by omega) (by omega)]
      exact fan_step_eq 100 3 (by omega) (by omega)

theorem fan_round_trip_idempotent_witness :
    fan_step_for_percentage (fan_percentage (fan_step_for_percentage 50))
      = fan_step_for_percentage 50 :=
  fan_round_trip_idempotent 50 (by norm_num) (by norm_num)

theorem pyRoundHalfEven_intCast (n : ℤ) : pyRoundHalfEven (n : ℚ) = n := by
  unfold pyRoundHalfEven
  rw [Int.floor_intCast]
  norm_num

theorem pyRound_intCast (n : ℤ) (d : ℕ) : pyRound (n : ℚ) d = (n : ℚ) := by
  unfold pyRound
  rw [show (n : ℚ) * 10 ^ d = ((n * 10 ^ d : ℤ) : ℚ) from by push_cast; ring,
    pyRoundHalfEven_intCast]
  push_cast
  rw [mul_div_assoc, div_self (by positivity), mul_one]

theorem pyRoundHalfEven_lb (x : ℚ) : ⌊x⌋ ≤ pyRoundHalfEven x := by
  unfold pyRoundHalfEven
  split
  · exact le_refl _
  · split
    · omega
    · split
      · exact le_refl _
      · omega

theorem pyRoundHalfEven_ub (x : ℚ) : pyRoundHalfEven x ≤ ⌊x⌋ + 1 := by
  unfold pyRoundHalfEven
  split
  · omega
  · split
    · omega
    · split
      · omega
      · omega

theorem pyTrunc_intCast (n : ℤ) : pyTrunc (n : ℚ) = n := by
  unfold pyTrunc
  split
  · exact Int.floor_intCast n
  · exact Int.ceil_intCast n

theorem pyRound_zero_digits (x : ℚ) : pyRound x 0 = (pyRoundHalfEven x : ℚ) := by
  unfold pyRound
  norm_num

/-- Claim C6 (amended): hue conversion is the linear rescale between the
vendor 0-100 and host 0-360 scales - reading vendor hue 100 gives host 360
and 0 gives 0 - and the write direction clamps the converted vendor hue into
[0, 100] for any host input; the read direction, however, applies no clamp
(see the counterexample at vendor hue 150). -/
theorem light_hue_conversion (h : ℚ) :
    light_read_hue 100 = 360 ∧ light_read_hue 0 = 0
    ∧ 0 ≤ light_set_color_hue h ∧ light_set_color_hue h ≤ 100 := by
  refine ⟨?_, ?_, ?_, ?_⟩
  · unfold light_read_hue convert_scale
    rw [show (100 : ℚ) * ((360 : ℤ) : ℚ) / ((100 : ℤ) : ℚ) = ((360 : ℤ) : ℚ) from by
      push_cast; norm_num]
    rw [pyRound_intCast]
    norm_num
  · unfold light_read_hue convert_scale
    rw [show (0 : ℚ) * ((360 : ℤ) : ℚ) / ((100 : ℤ) : ℚ) = ((0 : ℤ) : ℚ) from by
      push_cast; norm_num]
    rw [pyRound_intCast]
    norm_num
  · exact le_max_right _ _
  · exact max_le (min_le_right _ _) (by norm_num)

/-- Claim C6 counterexample: the read direction does not clamp - vendor hue
150 is converted to host hue 540, outside [0, 360]. -/
theorem light_read_hue_unclamped_at_150 :
    light_read_hue 150 = 540 ∧ ¬ light_read_hue 150 ≤ 360 := by
  have h : light_read_hue 150 = 540 := by
    unfold light_read_hue convert_scale
    rw [show (150 : ℚ) * ((360 : ℤ) : ℚ) / ((100 : ℤ) : ℚ) = ((540 : ℤ) : ℚ) from by
      push_cast; norm_num]
    rw [pyRound_intCast]
    norm_num
  exact ⟨h, by rw [h]; norm_num⟩

/-- Claim C7: for every host brightness in 1..255 the conventional dimmer
branch of `async_set_level` sends a vendor level in [1, 100]: a non-zero
brightness never rounds down to the vendor off level 0, so the level-0 send
is unreachable for positive brightness. -/
theorem dimmer_level_bounds (b : ℤ) (h1 : 1 ≤ b) (h2 : b ≤ 255) :
    1 ≤ dimmer_level b ∧ dimmer_level b ≤ 100 := by
  have hb0 : (0 : ℚ) < (b : ℚ) := by exact_mod_cast lt_of_lt_of_le zero_lt_one h1
  have hconv : convert_scale (b : ℚ) 255 100 0
      = (pyRoundHalfEven ((b : ℚ) * ((100 : ℤ) : ℚ) / ((255 : ℤ) : ℚ)) : ℚ) := by
    unfold convert_scale
    rw [pyRound_zero_digits]
  have hlevel0 : pyTrunc (convert_scale (b : ℚ) 255 100 0)
      = pyRoundHalfEven ((b : ℚ) * ((100 : ℤ) : ℚ) / ((255 : ℤ) : ℚ)) := by
    rw [hconv, pyTrunc_intCast]
  set x : ℚ := (b : ℚ) * ((100 : ℤ) : ℚ) / ((255 : ℤ) : ℚ) with hxdef
  have hx_pos : 0 < x := by
    rw [hxdef]
    apply div_pos (mul_pos hb0 (by norm_num)) (by norm_num)
  have hx_le : x ≤ 100 := by
    rw [hxdef, div_le_iff₀ (by norm_num : (0 : ℚ) < ((255 : ℤ) : ℚ))]
    have hb255 : (b : ℚ) ≤ 255 := by exact_mod_cast h2
    push_cast
    linarith
  have hfl0 : 0 ≤ ⌊x⌋ := Int.floor_nonneg.mpr hx_pos.le
  have hfl100 : ⌊x⌋ ≤ 100 := by
    have hle := Int.floor_le_floor hx_le
    simpa using hle
  have hround_le : pyRoundHalfEven x ≤ 100 := by
    rcases lt_or_eq_of_le hfl100 with hlt | heq
    · have hub := pyRoundHalfEven_ub x
      omega
    · have hge : (100 : ℚ) ≤ x := by
        have hf := Int.floor_le x
        rw [heq] at hf
        exact_mod_cast hf
      have hx100 : x = 100 := le_antisymm hx_le hge
      have hfix : pyRoundHalfEven x = ⌊x⌋ := by
        unfold pyRoundHalfEven
        rw [if_pos]
        rw [hx100]
        norm_num
      omega
  have hround_ge : 0 ≤ pyRoundHalfEven x := le_trans hfl0 (pyRoundHalfEven_lb x)
  simp only [dimmer_level]
  rw [hlevel0]
  split
  · constructor
    · omega
    · omega
  · constructor
    · rename_i hcond
      have : ¬ pyRoundHalfEven x = 0 ∨ ¬ b > 0 := by
        by_contra hc
        push_neg at hc
        exact hcond ⟨hc.1, hc.2⟩
      omega
    · omega

theorem dimmer_level_bounds_witness :
    1 ≤ dimmer_level 1 ∧ dimmer_level 1 ≤ 100 :=
  dimmer_level_bounds 1 (by norm_num) (by norm_num)

theorem head?_mem {α : Type} {l : List α} {a : α} (h : a ∈ l.head?) : a ∈ l := by
  cases l with
  | nil => simp [List.head?] at h
  | cons x t =>
    simp [List.head?] at h
    subst h
    exact List.mem_cons_self x t

theorem mkHoodConfig_steps_not_off (supported : Option Value) (hasSwitch : Bool) :
    ∀ s ∈ (mkHoodConfig supported hasSwitch).speedSteps,
      s ≠ Scalar.sStr "off" ∧ s ≠ Scalar.sInt 0 := by
  intro s hs
  rcases supported with _ | v
  · simp [mkHoodConfig, ORDERED_NAMED_HOOD_SPEEDS] at hs
    rcases hs with rfl | rfl | rfl | rfl
    · exact ⟨by decide, by decide⟩
    · exact ⟨by decide, by decide⟩
    · exact ⟨by decide, by decide⟩
    · exact ⟨by decide, by decide⟩
  · rcases v with sc | l
    · simp [mkHoodConfig, ORDERED_NAMED_HOOD_SPEEDS] at hs
      rcases hs with rfl | rfl | rfl | rfl
      · exact ⟨by decide, by decide⟩
      · exact ⟨by decide, by decide⟩
      · exact ⟨by decide, by decide⟩
      · exact ⟨by decide, by decide⟩
    · simp only [mkHoodConfig] at hs
      split at hs
      · simp [ORDERED_NAMED_HOOD_SPEEDS] at hs
        rcases hs with rfl | rfl | rfl | rfl
        · exact ⟨by decide, by decide⟩
        · exact ⟨by decide, by decide⟩
        · exact ⟨by decide, by decide⟩
        · exact ⟨by decide, by decide⟩
      · rcases List.mem_filter.mp hs with ⟨-, hpred⟩
        simp at hpred
        exact hpred

/-- Claim C4: setting percentage 0 always issues the designated off action
and never the bottom speed step - the plain fan sends only the switch-off
command (no `setFanSpeed` at all), and the hood fan routes through
`_handle_turn_off`, whose only speed command carries the explicit off speed
value (`"off"` or `0`), which is never the first step of the configured
speed list. -/
theorem percentage_zero_maps_to_off (supported : Option Value) (hasSwitch : Bool)
    (cfg : HoodConfig) (hcfg : cfg = mkHoodConfig supported hasSwitch) :
    fan_async_set_percentage 0 = [⟨SWITCH, "off", none⟩]
    ∧ (∀ c ∈ fan_async_set_percentage 0, c.command ≠ "setFanSpeed")
    ∧ hood_async_set_percentage cfg 0 = hood_handle_turn_off cfg
    ∧ (∀ c ∈ hood_async_set_percentage cfg 0, c.command = "setHoodFanSpeed" →
        c.argument = some (.vList [hood_off_speed_value cfg])
        ∧ ∀ bottom ∈ cfg.speedSteps.head?, c.argument ≠ some (.vList [bottom])) := by
  refine ⟨rfl, ?_, rfl, ?_⟩
  · intro c hc
    simp [fan_async_set_percentage] at hc
    subst hc
    decide
  · intro c hc hcmd
    have hc' : c ∈ hood_handle_turn_off cfg := hc
    unfold hood_handle_turn_off at hc'
    split at hc'
    · simp at hc'
      subst hc'
      exact absurd hcmd (by decide)
    · split at hc'
      · simp at hc'
        subst hc'
        refine ⟨rfl, ?_⟩
        intro bottom hbot heq
        have hbm : bottom ∈ cfg.speedSteps := head?_mem hbot
        rw [hcfg] at hbm
        have hno := mkHoodConfig_steps_not_off supported hasSwitch bottom hbm
        have harg : hood_off_speed_value cfg = bottom := by
          have := Option.some.inj heq
          have hlist := Value.vList.inj this
          exact (List.cons.inj hlist).1
        unfold hood_off_speed_value at harg
        by_cases hu : cfg.useStrSpeeds
        · rw [if_pos hu] at harg
          exact hno.1 harg.symm
        · rw [if_neg hu] at harg
          exact hno.2 harg.symm
      · simp at hc'
        subst hc'
        exact absurd hcmd (by decide)

theorem percentage_zero_maps_to_off_witness :
    hood_async_set_percentage (mkHoodConfig egOffHoodSupported true) 0
      = hood_handle_turn_off (mkHoodConfig egOffHoodSupported true)
    ∧ ((⟨SAMSUNG_CE_HOOD_FAN_SPEED, "setHoodFanSpeed",
        some (.vList [.sStr "off"])⟩ : SentCommand).argument
      = some (.vList [hood_off_speed_value (mkHoodConfig egOffHoodSupported true)])
      ∧ ∀ bottom ∈ (mkHoodConfig egOffHoodSupported true).speedSteps.head?,
        (⟨SAMSUNG_CE_HOOD_FAN_SPEED, "setHoodFanSpeed",
          some (.vList [.sStr "off"])⟩ : SentCommand).argument
          ≠ some (.vList [bottom])) :=
  ⟨(percentage_zero_maps_to_off egOffHoodSupported true _ rfl).2.2.1,
   (percentage_zero_maps_to_off egOffHoodSupported true _ rfl).2.2.2
     ⟨SAMSUNG_CE_HOOD_FAN_SPEED, "setHoodFanSpeed", some (.vList [.sStr "off"])⟩
     (by decide) rfl⟩

theorem select_lamp_level_pos (cfg : LampConfig) (brightness : ℤ)
    (hpos : ¬ brightness ≤ 0) (levels : List String)
    (hlv : cfg.supportedLevels.filter (fun l => l != "off") = levels)
    (hne : levels.isEmpty = false) (k : ℤ)
    (hk : ⌈(brightness : ℚ) / (255 / (levels.length : ℚ))⌉ = k) :
    select_lamp_level_for_brightness cfg brightness
      = some (levels.getD (min ((levels.length : ℤ) - 1) (max 0 (k - 1))).toNat "") := by
  unfold select_lamp_level_for_brightness
  rw [if_neg hpos, hlv, if_neg (by simp [hne])]
  simp only [hk]

/-- Claim C5: for the named-level lamp with levels `["off", "low", "high"]`,
the equal-width bucketing of `_select_lamp_level_for_brightness`
(`step = 255 / 2`) sends brightness 0 to `"off"`, brightness 255 to `"high"`,
and brightness 128 - which falls in the upper bucket, whose level is the
nearest non-off level under this bucketing - to `"high"`. -/
theorem lamp_brightness_level_map :
    select_lamp_level_for_brightness demoLampConfig 0 = some "off"
    ∧ select_lamp_level_for_brightness demoLampConfig 255 = some "high"
    ∧ select_lamp_level_for_brightness demoLampConfig 128 = some "high" := by
  have hlen : (((["low", "high"] : List String).length : ℕ) : ℚ) = 2 := by norm_num
  refine ⟨by decide, ?_, ?_⟩
  · rw [select_lamp_level_pos demoLampConfig 255 (by norm_num) ["low", "high"]
      (by decide) (by decide) 2 ?hc255]
    · decide
    case hc255 =>
      rw [hlen, show ((255 : ℤ) : ℚ) / (255 / 2) = ((2 : ℤ) : ℚ) from by
        push_cast; norm_num]
      exact Int.ceil_intCast 2
  · rw [select_lamp_level_pos demoLampConfig 128 (by norm_num) ["low", "high"]
      (by decide) (by decide) 2 ?hc128]
    · decide
    case hc128 =>
      rw [hlen, Int.ceil_eq_iff]
      constructor
      · push_cast
        norm_num
      · push_cast
        norm_num

/-- Claim C9: a hood fan configured with a split switch (separate `switch`
capability present and off not representable as a speed value) reports
`is_on` false and percentage 0 whenever the switch attribute reads `"off"`,
whatever the last known hood fan speed value is. -/
theorem hood_split_switch_off_reads (supported : Option Value) (hasSwitch : Bool)
    (cfg : HoodConfig) (e : Entity)
    (_hcfg : cfg = mkHoodConfig supported hasSwitch)
    (hsplit : cfg.splitSwitch = true)
    (hswitch : get_attribute_value e SWITCH SWITCH_ATTR = some (Value.vStr "off")) :
    hood_is_on cfg e = false
    ∧ (∀ v : Option Value, hood_percentage_from_speed_value cfg e v = 0)
    ∧ hood_percentage cfg e = 0 := by
  have h2 : ∀ v : Option Value, hood_percentage_from_speed_value cfg e v = 0 := by
    intro v
    unfold hood_percentage_from_speed_value
    rw [if_pos (show (cfg.splitSwitch &&
        (get_attribute_value e SWITCH SWITCH_ATTR == some (Value.vStr "off"))) = true from by
      rw [hsplit, hswitch]
      decide)]
  refine ⟨?_, h2, h2 _⟩
  unfold hood_is_on
  rw [if_pos hsplit, hswitch]
  decide

theorem hood_split_switch_off_reads_witness :
    hood_is_on egSplitHoodConfig egSplitHoodEntity = false
    ∧ hood_percentage egSplitHoodConfig egSplitHoodEntity = 0 :=
  ⟨(hood_split_switch_off_reads (some (.vList [.sStr "low", .sStr "high"])) true
      egSplitHoodConfig egSplitHoodEntity rfl (by decide) (by decide)).1,
   (hood_split_switch_off_reads (some (.vList [.sStr "low", .sStr "high"])) true
      egSplitHoodConfig egSplitHoodEntity rfl (by decide) (by decide)).2.2⟩

/-- Claim C10: the power-cool and power-freeze switches report `is_on` true
exactly when the `activated` attribute value is the string `"True"`; a
boolean True, a boolean False, or the lowercase string `"true"` all report
the switch as off. -/
theorem power_switch_is_on_iff (e : Entity) :
    (switch_is_on e SAMSUNG_CE_POWER_COOL = some true ↔
      get_attribute_value e SAMSUNG_CE_POWER_COOL ACTIVATED_ATTR
        = some (Value.vStr "True"))
    ∧ (switch_is_on e SAMSUNG_CE_POWER_FREEZE = some true ↔
      get_attribute_value e SAMSUNG_CE_POWER_FREEZE ACTIVATED_ATTR
        = some (Value.vStr "True"))
    ∧ switch_is_on (egPowerCoolEntity (Value.vBool true)) SAMSUNG_CE_POWER_COOL
        = some false
    ∧ switch_is_on (egPowerCoolEntity (Value.vBool false)) SAMSUNG_CE_POWER_COOL
        = some false
    ∧ switch_is_on (egPowerCoolEntity (Value.vStr "true")) SAMSUNG_CE_POWER_COOL
        = some false := by
  have hPC : switch_is_on e SAMSUNG_CE_POWER_COOL
      = some (get_attribute_value e SAMSUNG_CE_POWER_COOL ACTIVATED_ATTR
        == some (Value.vStr "True")) := rfl
  have hPF : switch_is_on e SAMSUNG_CE_POWER_FREEZE
      = some (get_attribute_value e SAMSUNG_CE_POWER_FREEZE ACTIVATED_ATTR
        == some (Value.vStr "True")) := rfl
  refine ⟨?_, ?_, by decide, by decide, by decide⟩
  · rw [hPC]
    simp
  · rw [hPF]
    simp

theorem power_switch_is_on_iff_witness :
    switch_is_on (egPowerCoolEntity (Value.vStr "True")) SAMSUNG_CE_POWER_COOL
      = some true :=
  (power_switch_is_on_iff (egPowerCoolEntity (Value.vStr "True"))).1.mpr (by decide)
